import Mathlib

/-!
Shallow embedding of the XP-PREDICTOR prediction engine
(`src/backend/src/predict.ts`) and the offline-evaluation backtest harness
(`src/backend/src/index.ts`, handler `/api/admin/evaluation/offline`).

JavaScript numbers are modelled as exact rationals (`ℚ`) for the arithmetic
layer; quantities whose computation in the source goes through `Math.sqrt`
(standard deviations, interval half-widths) live in `ℝ` via `Real.sqrt`.
Timestamps (`playedAt.getTime()`) are modelled as integers (epoch
milliseconds), database ids as integers, nullable user ids as `Option Int`.
Display-only string fields (`advice`, `note`, `memo`) carry no claim and are
omitted from the embedded output structures.
-/

namespace XPPredictor

/-- `SessionRecord` from `predict.ts` (lines 1–18). `memo`/`createdAt` are
display-only and omitted. -/
structure SessionRecord where
  id : Int
  userId : Option Int
  playedAt : Int
  rule : String
  stage1 : String
  stage2 : String
  weapon : String
  wins : ℚ
  losses : ℚ
  fatigue : ℚ
  irritability : ℚ
  concentration : ℚ
  startXp : ℚ
  endXp : ℚ
deriving DecidableEq, Repr

/-- `PredictionCondition` from `predict.ts` (lines 30–39). -/
structure PredictionCondition where
  rule : String
  stage1 : String
  stage2 : String
  weapon : String
  fatigue : ℚ
  irritability : ℚ
  concentration : ℚ
  startXp : ℚ
deriving DecidableEq, Repr

/-- `clamp` from `predict.ts` line 20 with the default bounds `min = 0`,
`max = 1` (the only bounds the engine uses): `Math.max(0, Math.min(1, x))`. -/
def clamp01 (x : ℚ) : ℚ := max 0 (min 1 x)

/-- Real-valued counterpart of `clamp01`, for the interval endpoints that are
computed after `Math.sqrt`. -/
def clampR (x : ℝ) : ℝ := max 0 (min 1 x)

/-- `smoothedRate` from `predict.ts` lines 22–28. -/
def smoothedRate (wins losses priorRate : ℚ) (k : ℚ := 10) : ℚ :=
  let priorWins := priorRate * k
  let priorLoss := (1 - priorRate) * k
  let w := wins + priorWins
  let l := losses + priorLoss
  w / (w + l)

/-- `WeightedSession` from `predict.ts` lines 41–44. -/
structure WeightedSession where
  session : SessionRecord
  weight : ℚ
deriving DecidableEq, Repr

/-- `stageMatches` from `predict.ts` lines 61–68. -/
def stageMatches (session : SessionRecord) (condition : PredictionCondition) : Bool :=
  session.stage1 == condition.stage1 ||
  session.stage2 == condition.stage1 ||
  session.stage1 == condition.stage2 ||
  session.stage2 == condition.stage2

/-- `buildWeightedSessions` from `predict.ts` lines 70–81: weight is
`targetWeight` exactly when `targetUserId !== null && session.userId ===
targetUserId`, else `otherWeight`. -/
def buildWeightedSessions (sessions : List SessionRecord) (targetUserId : Option Int)
    (targetWeight : ℚ := 0.6) (otherWeight : ℚ := 0.4) : List WeightedSession :=
  sessions.map (fun session =>
    { session := session
      weight :=
        match targetUserId with
        | none => otherWeight
        | some t => if session.userId = some t then targetWeight else otherWeight })

/-- `weightedWinLoss` from `predict.ts` lines 83–91, as the source's
accumulation loop (first component `wins`, second `losses`). -/
def weightedWinLoss (items : List WeightedSession) : ℚ × ℚ :=
  items.foldl
    (fun acc item =>
      (acc.1 + item.session.wins * item.weight, acc.2 + item.session.losses * item.weight))
    (0, 0)

/-- Result of `weightedMeanStd` (`predict.ts` lines 93–106), carrying the
variance rather than the standard deviation; the source's `std` is
`Math.sqrt(Math.max(variance, 0))`, recovered by `MeanStats.stdR` below. -/
structure MeanStats where
  mean : ℚ
  variance : ℚ
  nEff : ℚ
deriving DecidableEq, Repr

/-- `weightedMeanStd` from `predict.ts` lines 93–106 over `(value, weight)`
pairs. -/
def weightedMeanStd (values : List (ℚ × ℚ)) : MeanStats :=
  if values.length = 0 then ⟨0, 0, 0⟩
  else
    let sumW := (values.map Prod.snd).sum
    if sumW ≤ 0 then ⟨0, 0, 0⟩
    else
      let mean := (values.map (fun v => v.1 * v.2)).sum / sumW
      let variance := (values.map (fun v => v.2 * (v.1 - mean) ^ 2)).sum / sumW
      let sumW2 := (values.map (fun v => v.2 * v.2)).sum
      let nEff := if sumW2 > 0 then sumW * sumW / sumW2 else 0
      ⟨mean, variance, nEff⟩

/-- `std` component of `weightedMeanStd`: `Math.sqrt(Math.max(variance, 0))`. -/
noncomputable def MeanStats.stdR (s : MeanStats) : ℝ := Real.sqrt (max (s.variance : ℝ) 0)

/-! The body of `predictPersonalizedByCondition` (`predict.ts` lines 139–211),
factored into its successive local constants. Each definition below is one
`const` of the source, taking the enclosing function's arguments. -/

/-- `weightedAll` (`predict.ts` line 139). -/
def weightedAll (trainSessions : List SessionRecord) (targetUserId : Option Int) :
    List WeightedSession :=
  buildWeightedSessions trainSessions targetUserId

/-- `globalByRule` (`predict.ts` line 140). -/
def globalByRule (trainSessions : List SessionRecord) (condition : PredictionCondition)
    (targetUserId : Option Int) : List WeightedSession :=
  (weightedAll trainSessions targetUserId).filter (fun x => x.session.rule == condition.rule)

/-- `basePool` (`predict.ts` line 141). -/
def basePool (trainSessions : List SessionRecord) (condition : PredictionCondition)
    (targetUserId : Option Int) : List WeightedSession :=
  if (globalByRule trainSessions condition targetUserId).length > 0 then
    globalByRule trainSessions condition targetUserId
  else weightedAll trainSessions targetUserId

/-- `base` (`predict.ts` lines 143–145). -/
def baseRate (trainSessions : List SessionRecord) (condition : PredictionCondition)
    (targetUserId : Option Int) : ℚ :=
  let baseWL := weightedWinLoss (basePool trainSessions condition targetUserId)
  if baseWL.1 + baseWL.2 > 0 then baseWL.1 / (baseWL.1 + baseWL.2) else 0.5

/-- `weaponPool` (`predict.ts` line 147). -/
def weaponPool (trainSessions : List SessionRecord) (condition : PredictionCondition)
    (targetUserId : Option Int) : List WeightedSession :=
  (basePool trainSessions condition targetUserId).filter
    (fun x => x.session.weapon == condition.weapon)

/-- `weaponRate` (`predict.ts` lines 148–149). -/
def weaponRate (trainSessions : List SessionRecord) (condition : PredictionCondition)
    (targetUserId : Option Int) : ℚ :=
  let weaponWL := weightedWinLoss (weaponPool trainSessions condition targetUserId)
  smoothedRate weaponWL.1 weaponWL.2 (baseRate trainSessions condition targetUserId) 12

/-- `stagePool` (`predict.ts` line 151). -/
def stagePool (trainSessions : List SessionRecord) (condition : PredictionCondition)
    (targetUserId : Option Int) : List WeightedSession :=
  (basePool trainSessions condition targetUserId).filter (fun x => stageMatches x.session condition)

/-- `stageRate` (`predict.ts` lines 152–153). -/
def stageRate (trainSessions : List SessionRecord) (condition : PredictionCondition)
    (targetUserId : Option Int) : ℚ :=
  let stageWL := weightedWinLoss (stagePool trainSessions condition targetUserId)
  smoothedRate stageWL.1 stageWL.2 (baseRate trainSessions condition targetUserId) 12

/-- `mentalPenalty` (`predict.ts` lines 155–160): weighted sum of the four
normalized mental/XP factors. -/
def mentalPenalty (condition : PredictionCondition) : ℚ :=
  let fatigueNorm := clamp01 ((condition.fatigue - 1) / 4)
  let irriNorm := clamp01 ((condition.irritability - 1) / 4)
  let concentrationNorm := clamp01 ((5 - condition.concentration) / 4)
  let xpNorm := clamp01 (condition.startXp / 5000)
  0.03 * fatigueNorm + 0.03 * irriNorm + 0.03 * concentrationNorm + 0.02 * xpNorm

/-- `predictedWinRate` (`predict.ts` lines 162–164). -/
def predictedWinRate (trainSessions : List SessionRecord) (condition : PredictionCondition)
    (targetUserId : Option Int) : ℚ :=
  let base := baseRate trainSessions condition targetUserId
  clamp01
    (base + 0.5 * (weaponRate trainSessions condition targetUserId - base) +
      0.3 * (stageRate trainSessions condition targetUserId - base) -
      mentalPenalty condition)

/-- The per-record XP-delta rows `endXp − startXp` with weights
(`predict.ts` lines 166–181, shared shape of the four pools). -/
def xpRows (pool : List WeightedSession) : List (ℚ × ℚ) :=
  pool.map (fun x => (x.session.endXp - x.session.startXp, x.weight))

/-- `xpGlobal` (`predict.ts` line 183). -/
def xpGlobal (trainSessions : List SessionRecord) (condition : PredictionCondition)
    (targetUserId : Option Int) : MeanStats :=
  weightedMeanStd (xpRows (basePool trainSessions condition targetUserId))

/-- `xpRule` (`predict.ts` line 184). -/
def xpRule (trainSessions : List SessionRecord) (condition : PredictionCondition)
    (targetUserId : Option Int) : MeanStats :=
  weightedMeanStd (xpRows (globalByRule trainSessions condition targetUserId))

/-- `xpWeapon` (`predict.ts` line 185). -/
def xpWeapon (trainSessions : List SessionRecord) (condition : PredictionCondition)
    (targetUserId : Option Int) : MeanStats :=
  weightedMeanStd (xpRows (weaponPool trainSessions condition targetUserId))

/-- `xpStage` (`predict.ts` line 186). -/
def xpStage (trainSessions : List SessionRecord) (condition : PredictionCondition)
    (targetUserId : Option Int) : MeanStats :=
  weightedMeanStd (xpRows (stagePool trainSessions condition targetUserId))

/-- `predictedXpDelta` (`predict.ts` lines 188–193). -/
def predictedXpDelta (trainSessions : List SessionRecord) (condition : PredictionCondition)
    (targetUserId : Option Int) : ℚ :=
  0.4 * (xpRule trainSessions condition targetUserId).mean +
    0.3 * (xpWeapon trainSessions condition targetUserId).mean +
    0.2 * (xpStage trainSessions condition targetUserId).mean +
    0.1 * (xpGlobal trainSessions condition targetUserId).mean +
    (predictedWinRate trainSessions condition targetUserId - 0.5) * 140

/-- `nEff` for the win-rate interval (`predict.ts` line 195). -/
def winNEff (trainSessions : List SessionRecord) (condition : PredictionCondition)
    (targetUserId : Option Int) : ℚ :=
  max 6
    ((xpRule trainSessions condition targetUserId).nEff +
      0.5 * (xpWeapon trainSessions condition targetUserId).nEff +
      0.5 * (xpStage trainSessions condition targetUserId).nEff)

/-- `winStd` (`predict.ts` line 196):
`Math.sqrt(Math.max(p·(1−p), 0.0001) / nEff)`. -/
noncomputable def winStd (trainSessions : List SessionRecord) (condition : PredictionCondition)
    (targetUserId : Option Int) : ℝ :=
  let p := predictedWinRate trainSessions condition targetUserId
  Real.sqrt ((max (p * (1 - p)) 0.0001 / winNEff trainSessions condition targetUserId : ℚ) : ℝ)

/-- `xpStd` (`predict.ts` lines 202–205). -/
noncomputable def xpStdR (trainSessions : List SessionRecord) (condition : PredictionCondition)
    (targetUserId : Option Int) : ℝ :=
  max 20
    (0.5 * (xpRule trainSessions condition targetUserId).stdR +
      0.25 * (xpWeapon trainSessions condition targetUserId).stdR +
      0.15 * (xpStage trainSessions condition targetUserId).stdR +
      0.1 * (xpGlobal trainSessions condition targetUserId).stdR)

/-- `PersonalizedPrediction` from `predict.ts` lines 46–59, with the two
intervals flattened into `low`/`high` fields; the display strings `advice`
and `note` are omitted. -/
structure PersonalizedPrediction where
  predictedWinRate : ℚ
  baseWinRate : ℚ
  weaponWinRate : ℚ
  stageWinRate : ℚ
  mentalPenalty : ℚ
  predictedXpDelta : ℚ
  expectedEndXp : ℚ
  winRateIntervalLow : ℝ
  winRateIntervalHigh : ℝ
  xpDeltaIntervalLow : ℝ
  xpDeltaIntervalHigh : ℝ
  recommendPlay : Bool

/-- `predictPersonalizedByCondition` from `predict.ts` lines 115–226: the
empty-input neutral fallback (lines 120–137) and the assembled result
(lines 212–225) from the local constants above. -/
noncomputable def predictPersonalizedByCondition (trainSessions : List SessionRecord)
    (condition : PredictionCondition) (targetUserId : Option Int) : PersonalizedPrediction :=
  if trainSessions.length = 0 then
    { predictedWinRate := 0.5
      baseWinRate := 0.5
      weaponWinRate := 0.5
      stageWinRate := 0.5
      mentalPenalty := 0
      predictedXpDelta := 0
      expectedEndXp := condition.startXp + 0
      winRateIntervalLow := 0.35
      winRateIntervalHigh := 0.65
      xpDeltaIntervalLow := -120
      xpDeltaIntervalHigh := 120
      recommendPlay := false }
  else
    { predictedWinRate := predictedWinRate trainSessions condition targetUserId
      baseWinRate := baseRate trainSessions condition targetUserId
      weaponWinRate := weaponRate trainSessions condition targetUserId
      stageWinRate := stageRate trainSessions condition targetUserId
      mentalPenalty := mentalPenalty condition
      predictedXpDelta := predictedXpDelta trainSessions condition targetUserId
      expectedEndXp := condition.startXp + predictedXpDelta trainSessions condition targetUserId
      winRateIntervalLow :=
        clampR ((predictedWinRate trainSessions condition targetUserId : ℝ) -
          1.96 * winStd trainSessions condition targetUserId)
      winRateIntervalHigh :=
        clampR ((predictedWinRate trainSessions condition targetUserId : ℝ) +
          1.96 * winStd trainSessions condition targetUserId)
      xpDeltaIntervalLow :=
        (predictedXpDelta trainSessions condition targetUserId : ℝ) -
          1.96 * xpStdR trainSessions condition targetUserId
      xpDeltaIntervalHigh :=
        (predictedXpDelta trainSessions condition targetUserId : ℝ) +
          1.96 * xpStdR trainSessions condition targetUserId
      recommendPlay := decide (predictedXpDelta trainSessions condition targetUserId > 0) }

/-! Embedding of the offline-evaluation backtest harness
(`index.ts`, handler `/api/admin/evaluation/offline`, lines 579–717).
`fetchAllSessions` (line 251) reads the whole table `ORDER BY playedAt ASC,
id ASC`, so the harness receives a list sorted by the strict lexicographic
order on `(playedAt, id)`; `id` is the primary key, hence distinct. -/

/-- Strict lexicographic order on `(playedAt, id)` — the `ORDER BY` of
`fetchAllSessions` (`index.ts` line 253). -/
def lexLt (a b : SessionRecord) : Prop :=
  a.playedAt < b.playedAt ∨ (a.playedAt = b.playedAt ∧ a.id < b.id)

instance (a b : SessionRecord) : Decidable (lexLt a b) := by
  unfold lexLt; infer_instance

/-- The training-set membership test of the backtest loop (`index.ts` lines
629–633): played strictly before `current`, ties broken by id. -/
def playedBefore (s current : SessionRecord) : Bool :=
  s.playedAt < current.playedAt ||
    (s.playedAt == current.playedAt && s.id < current.id)

/-- Stable insertion of a record into a list already sorted by `playedAt`:
the record goes after every element whose `playedAt` is `≤` its own. -/
def insertByTime (x : SessionRecord) : List SessionRecord → List SessionRecord
  | [] => [x]
  | y :: ys => if y.playedAt ≤ x.playedAt then y :: insertByTime x ys else x :: y :: ys

/-- The harness's stable sort of the target user's records by `playedAt`
ascending (`index.ts` line 596; `Array.prototype.sort` is stable). -/
def sortByPlayedAt (l : List SessionRecord) : List SessionRecord :=
  l.foldl (fun acc x => insertByTime x acc) []

/-- `warmup` clamping (`index.ts` line 589): `max(3, min(30, trunc(raw)))`
on the finite-number path. -/
def clampWarmup (raw : Int) : Int := max 3 (min 30 raw)

/-- `limit` clamping (`index.ts` line 591): `max(20, min(500, trunc(raw)))`
on the finite-number path. -/
def clampLimit (raw : Int) : Int := max 20 (min 500 raw)

/-- The `PredictionCondition` built from the record under evaluation
(`index.ts` lines 636–645). -/
def conditionOf (current : SessionRecord) : PredictionCondition :=
  { rule := current.rule
    stage1 := current.stage1
    stage2 := current.stage2
    weapon := current.weapon
    fatigue := current.fatigue
    irritability := current.irritability
    concentration := current.concentration
    startXp := current.startXp }

/-- One evaluated row of the backtest report (`index.ts` lines 604–625,
651–674). Display fields (`playedAt`, `rule`, stages, `weapon`, `advice`,
`note`) are omitted; the interval-coverage fields are propositions since the
interval endpoints are real-valued. -/
structure BacktestRow where
  sessionId : Int
  predictedWinRate : ℚ
  actualWinRate : ℚ
  winRateAbsError : ℚ
  winRateIntervalLow : ℝ
  winRateIntervalHigh : ℝ
  winRateCovered : Prop
  predictedXpDelta : ℚ
  actualXpDelta : ℚ
  xpDeltaError : ℚ
  xpDeltaIntervalLow : ℝ
  xpDeltaIntervalHigh : ℝ
  xpDeltaCovered : Prop
  recommendPlay : Bool
  actualRecommendSuccess : Bool

/-- The row pushed for one evaluated record (`index.ts` lines 647–674). -/
noncomputable def evalRow (train : List SessionRecord) (current : SessionRecord)
    (targetUserId : Int) : BacktestRow :=
  let pred := predictPersonalizedByCondition train (conditionOf current) (some targetUserId)
  let totalGames := current.wins + current.losses
  let actualWinRate := if totalGames > 0 then current.wins / totalGames else 0
  let actualXpDelta := current.endXp - current.startXp
  { sessionId := current.id
    predictedWinRate := pred.predictedWinRate
    actualWinRate := actualWinRate
    winRateAbsError := |pred.predictedWinRate - actualWinRate|
    winRateIntervalLow := pred.winRateIntervalLow
    winRateIntervalHigh := pred.winRateIntervalHigh
    winRateCovered :=
      pred.winRateIntervalLow ≤ (actualWinRate : ℝ) ∧
        (actualWinRate : ℝ) ≤ pred.winRateIntervalHigh
    predictedXpDelta := pred.predictedXpDelta
    actualXpDelta := actualXpDelta
    xpDeltaError := pred.predictedXpDelta - actualXpDelta
    xpDeltaIntervalLow := pred.xpDeltaIntervalLow
    xpDeltaIntervalHigh := pred.xpDeltaIntervalHigh
    xpDeltaCovered :=
      pred.xpDeltaIntervalLow ≤ (actualXpDelta : ℝ) ∧
        (actualXpDelta : ℝ) ≤ pred.xpDeltaIntervalHigh
    recommendPlay := pred.recommendPlay
    actualRecommendSuccess := decide (actualXpDelta > 0) }

/-- The body of the backtest loop for one candidate record (`index.ts` lines
627–675): build the training set of all records played strictly before
`current` (ties by id), skip when it has fewer than `warmup` records, else
emit the evaluated row. -/
noncomputable def backtestStep (allSessions : List SessionRecord) (warmupN : Nat)
    (targetUserId : Int) (current : SessionRecord) : Option BacktestRow :=
  let train := allSessions.filter (fun s => playedBefore s current)
  if train.length < warmupN then none
  else some (evalRow train current targetUserId)

/-- The target user's records, chronologically sorted (`index.ts` lines
594–596). -/
def targetSessionsOf (allSessions : List SessionRecord) (targetUserId : Int) :
    List SessionRecord :=
  sortByPlayedAt (allSessions.filter (fun s => s.userId == some targetUserId))

/-- All evaluated rows of the backtest, before the recency slice (`index.ts`
lines 627–675: the loop runs over positions `i ≥ warmup` of the sorted
target history). -/
noncomputable def backtestRows (allSessions : List SessionRecord) (targetUserId : Int)
    (warmupN : Nat) : List BacktestRow :=
  ((targetSessionsOf allSessions targetUserId).drop warmupN).filterMap
    (backtestStep allSessions warmupN targetUserId)

/-- The two failure modes of the harness (`index.ts` lines 598–602 and
678–680). -/
inductive BacktestError where
  | insufficientHistory (required : Int) (actual : Nat)
  | noRows
deriving DecidableEq

/-- The backtest report (`index.ts` lines 699–716). Of the summary only the
rational-valued aggregates are embedded; `rmse*`/coverage/precision are
aggregates over the same `rows` list and are referenced by no claim. -/
structure BacktestReport where
  targetUserId : Int
  warmup : Int
  evaluatedCount : Nat
  maeWinRate : ℚ
  maeXpDelta : ℚ
  rows : List BacktestRow

/-- `runBacktest`: the computation of `/api/admin/evaluation/offline`
(`index.ts` lines 588–716) after the query parameters have been parsed to
finite numbers. -/
noncomputable def runBacktest (allSessions : List SessionRecord) (targetUserId : Int)
    (warmupRaw limitRaw : Int) : Except BacktestError BacktestReport :=
  let warmup := clampWarmup warmupRaw
  let limit := clampLimit limitRaw
  let targetSessions := targetSessionsOf allSessions targetUserId
  if (targetSessions.length : Int) ≤ warmup then
    .error (.insufficientHistory warmup targetSessions.length)
  else
    let rows := backtestRows allSessions targetUserId warmup.toNat
    let recent := rows.drop (rows.length - limit.toNat)
    if recent.length = 0 then .error .noRows
    else
      .ok
        { targetUserId := targetUserId
          warmup := warmup
          evaluatedCount := recent.length
          maeWinRate := (recent.map (fun r => r.winRateAbsError)).sum / recent.length
          maeXpDelta := (recent.map (fun r => |r.xpDeltaError|)).sum / recent.length
          rows := recent }

/-! Basic facts about `clamp01`. -/

theorem clamp01_nonneg (x : ℚ) : 0 ≤ clamp01 x := le_max_left 0 _

theorem clamp01_le_one (x : ℚ) : clamp01 x ≤ 1 :=
  max_le (by norm_num) (min_le_left 1 x)

theorem clamp01_mono {x y : ℚ} (h : x ≤ y) : clamp01 x ≤ clamp01 y :=
  max_le_max le_rfl (min_le_min le_rfl h)

theorem clampR_nonneg (x : ℝ) : 0 ≤ clampR x := le_max_left 0 _

theorem clampR_le_one (x : ℝ) : clampR x ≤ 1 :=
  max_le (by norm_num) (min_le_left 1 x)

/-- C1: With an empty training list, `predictPersonalizedByCondition` returns
the fixed neutral prediction — win rate 0.5 (and all three component rates
0.5), zero mental penalty, XP delta 0, win-rate interval [0.35, 0.65],
XP-delta interval [−120, 120], recommendation `false`, and expected end XP
equal to the condition's `startXp` — for every condition and target user id
(the function is total, so no error is raised). -/
theorem claim_C1_empty_input_neutral (c : PredictionCondition) (u : Option Int) :
    (predictPersonalizedByCondition [] c u).predictedWinRate = 0.5 ∧
    (predictPersonalizedByCondition [] c u).baseWinRate = 0.5 ∧
    (predictPersonalizedByCondition [] c u).weaponWinRate = 0.5 ∧
    (predictPersonalizedByCondition [] c u).stageWinRate = 0.5 ∧
    (predictPersonalizedByCondition [] c u).mentalPenalty = 0 ∧
    (predictPersonalizedByCondition [] c u).predictedXpDelta = 0 ∧
    (predictPersonalizedByCondition [] c u).expectedEndXp = c.startXp ∧
    (predictPersonalizedByCondition [] c u).winRateIntervalLow = 0.35 ∧
    (predictPersonalizedByCondition [] c u).winRateIntervalHigh = 0.65 ∧
    (predictPersonalizedByCondition [] c u).xpDeltaIntervalLow = -120 ∧
    (predictPersonalizedByCondition [] c u).xpDeltaIntervalHigh = 120 ∧
    (predictPersonalizedByCondition [] c u).recommendPlay = false := by
  refine ⟨?_, ?_, ?_, ?_, ?_, ?_, ?_, ?_, ?_, ?_, ?_, ?_⟩ <;>
    simp [predictPersonalizedByCondition]

/-- C5: `smoothedRate` returns exactly the prior when `wins = losses = 0`
(for every prior and positive strength), and its output is strictly between
0 and 1 whenever `wins ≥ 0`, `losses ≥ 0`, the prior is in (0, 1) and the
strength is positive. -/
theorem claim_C5_smoothedRate_prior_and_range :
    (∀ p k : ℚ, 0 < k → smoothedRate 0 0 p k = p) ∧
    (∀ wins losses p k : ℚ, 0 ≤ wins → 0 ≤ losses → 0 < p → p < 1 → 0 < k →
      0 < smoothedRate wins losses p k ∧ smoothedRate wins losses p k < 1) := by
  constructor
  · intro p k hk
    have hk0 : k ≠ 0 := ne_of_gt hk
    show (0 + p * k) / ((0 + p * k) + (0 + (1 - p) * k)) = p
    have hden : (0 + p * k) + (0 + (1 - p) * k) = k := by ring
    rw [hden, div_eq_iff hk0]
    ring
  · intro wins losses p k hw hl hp hp1 hk
    have hwpos : 0 < wins + p * k := by positivity
    have hlpos : 0 < losses + (1 - p) * k := by
      have h1p : 0 < 1 - p := by linarith
      positivity
    have hsum : 0 < (wins + p * k) + (losses + (1 - p) * k) := by linarith
    constructor
    · show 0 < (wins + p * k) / ((wins + p * k) + (losses + (1 - p) * k))
      exact div_pos hwpos hsum
    · show (wins + p * k) / ((wins + p * k) + (losses + (1 - p) * k)) < 1
      rw [div_lt_one hsum]
      linarith

/-- Closed witness for C5 at concrete inputs. -/
theorem claim_C5_smoothedRate_prior_and_range_witness :
    smoothedRate 0 0 (3 / 10) 10 = 3 / 10 ∧
      (0 < smoothedRate 2 1 (1 / 2) 10 ∧ smoothedRate 2 1 (1 / 2) 10 < 1) :=
  ⟨claim_C5_smoothedRate_prior_and_range.1 (3 / 10) 10 (by norm_num),
    claim_C5_smoothedRate_prior_and_range.2 2 1 (1 / 2) 10 (by norm_num) (by norm_num)
      (by norm_num) (by norm_num) (by norm_num)⟩

/-- C6: With a non-null target user id, `buildWeightedSessions` (at its
default weights) assigns weight 0.6 to every record owned by that user and
weight 0.4 to every other record, including records with a null owner; with
a null target user id every record gets weight 0.4. -/
theorem claim_C6_buildWeightedSessions_weights :
    (∀ (sessions : List SessionRecord) (uid : Int) (w : WeightedSession),
      w ∈ buildWeightedSessions sessions (some uid) →
        (w.session.userId = some uid → w.weight = 0.6) ∧
        (w.session.userId ≠ some uid → w.weight = 0.4)) ∧
    (∀ (sessions : List SessionRecord) (w : WeightedSession),
      w ∈ buildWeightedSessions sessions none → w.weight = 0.4) := by
  constructor
  · intro sessions uid w hw
    simp only [buildWeightedSessions, List.mem_map] at hw
    obtain ⟨s, _, rfl⟩ := hw
    constructor
    · intro hown
      have hown' : s.userId = some uid := hown
      show (if s.userId = some uid then (0.6 : ℚ) else 0.4) = 0.6
      rw [if_pos hown']
    · intro hother
      have hother' : ¬s.userId = some uid := hother
      show (if s.userId = some uid then (0.6 : ℚ) else 0.4) = 0.4
      rw [if_neg hother']
  · intro sessions w hw
    simp only [buildWeightedSessions, List.mem_map] at hw
    obtain ⟨s, _, rfl⟩ := hw
    rfl

/-- A concrete record used in closed witnesses (owned by user 1). -/
def recOwn : SessionRecord :=
  { id := 1, userId := some 1, playedAt := 0, rule := "area", stage1 := "s1", stage2 := "s2",
    weapon := "w1", wins := 3, losses := 2, fatigue := 2, irritability := 1, concentration := 4,
    startXp := 2000, endXp := 2050 }

/-- A concrete record owned by a different user (user 2). -/
def recOther : SessionRecord :=
  { id := 2, userId := some 2, playedAt := 1, rule := "area", stage1 := "s1", stage2 := "s3",
    weapon := "w2", wins := 1, losses := 4, fatigue := 3, irritability := 2, concentration := 3,
    startXp := 1800, endXp := 1700 }

/-- A concrete unowned record (null `userId`). -/
def recNull : SessionRecord :=
  { id := 3, userId := none, playedAt := 2, rule := "tower", stage1 := "s2", stage2 := "s3",
    weapon := "w1", wins := 2, losses := 2, fatigue := 1, irritability := 1, concentration := 5,
    startXp := 1500, endXp := 1500 }

/-- Closed witness for C6: concrete weights for an owned, a foreign and an
unowned record. -/
theorem claim_C6_buildWeightedSessions_weights_witness :
    (⟨recOwn, 0.6⟩ : WeightedSession).weight = 0.6 ∧
      (⟨recOther, 0.4⟩ : WeightedSession).weight = 0.4 ∧
      (⟨recNull, 0.4⟩ : WeightedSession).weight = 0.4 :=
  ⟨(claim_C6_buildWeightedSessions_weights.1 [recOwn, recOther, recNull] 1 ⟨recOwn, 0.6⟩
      (by simp [buildWeightedSessions, recOwn, recOther, recNull])).1 (by simp [recOwn]),
    (claim_C6_buildWeightedSessions_weights.1 [recOwn, recOther, recNull] 1 ⟨recOther, 0.4⟩
      (by simp [buildWeightedSessions, recOwn, recOther, recNull])).2 (by simp [recOther]),
    (claim_C6_buildWeightedSessions_weights.1 [recOwn, recOther, recNull] 1 ⟨recNull, 0.4⟩
      (by simp [buildWeightedSessions, recOwn, recOther, recNull])).2 (by simp [recNull])⟩

/-- C7: The mental penalty lies in [0, 0.11] for every condition, is
monotonically non-decreasing in fatigue, irritability and starting XP, and
monotonically non-increasing in concentration, the other fields held
fixed. -/
theorem claim_C7_mentalPenalty_bounds_monotone :
    (∀ c : PredictionCondition, 0 ≤ mentalPenalty c ∧ mentalPenalty c ≤ 0.11) ∧
    (∀ (c : PredictionCondition) (a b : ℚ), a ≤ b →
      mentalPenalty { c with fatigue := a } ≤ mentalPenalty { c with fatigue := b }) ∧
    (∀ (c : PredictionCondition) (a b : ℚ), a ≤ b →
      mentalPenalty { c with irritability := a } ≤ mentalPenalty { c with irritability := b }) ∧
    (∀ (c : PredictionCondition) (a b : ℚ), a ≤ b →
      mentalPenalty { c with startXp := a } ≤ mentalPenalty { c with startXp := b }) ∧
    (∀ (c : PredictionCondition) (a b : ℚ), a ≤ b →
      mentalPenalty { c with concentration := b } ≤ mentalPenalty { c with concentration := a }) := by
  refine ⟨?_, ?_, ?_, ?_, ?_⟩
  · intro c
    have h1l := clamp01_nonneg ((c.fatigue - 1) / 4)
    have h1u := clamp01_le_one ((c.fatigue - 1) / 4)
    have h2l := clamp01_nonneg ((c.irritability - 1) / 4)
    have h2u := clamp01_le_one ((c.irritability - 1) / 4)
    have h3l := clamp01_nonneg ((5 - c.concentration) / 4)
    have h3u := clamp01_le_one ((5 - c.concentration) / 4)
    have h4l := clamp01_nonneg (c.startXp / 5000)
    have h4u := clamp01_le_one (c.startXp / 5000)
    unfold mentalPenalty
    constructor <;> [positivity; (norm_num; linarith)]
  · intro c a b hab
    unfold mentalPenalty
    have h := clamp01_mono (show (a - 1) / 4 ≤ (b - 1) / 4 by linarith)
    simp only
    have h34 := clamp01_nonneg ((5 - c.concentration) / 4)
    nlinarith [h]
  · intro c a b hab
    unfold mentalPenalty
    have h := clamp01_mono (show (a - 1) / 4 ≤ (b - 1) / 4 by linarith)
    simp only
    nlinarith [h]
  · intro c a b hab
    unfold mentalPenalty
    have h := clamp01_mono (show a / 5000 ≤ b / 5000 by linarith)
    simp only
    nlinarith [h]
  · intro c a b hab
    unfold mentalPenalty
    have h := clamp01_mono (show (5 - b) / 4 ≤ (5 - a) / 4 by linarith)
    simp only
    nlinarith [h]

/-- A concrete condition used in closed witnesses. -/
def cond0 : PredictionCondition :=
  { rule := "area", stage1 := "s1", stage2 := "s2", weapon := "w1",
    fatigue := 2, irritability := 1, concentration := 4, startXp := 2000 }

/-- Closed witness for C7 at a concrete condition. -/
theorem claim_C7_mentalPenalty_bounds_monotone_witness :
    (0 ≤ mentalPenalty cond0 ∧ mentalPenalty cond0 ≤ 0.11) ∧
      mentalPenalty { cond0 with fatigue := 1 } ≤ mentalPenalty { cond0 with fatigue := 3 } ∧
      mentalPenalty { cond0 with irritability := 1 } ≤
        mentalPenalty { cond0 with irritability := 3 } ∧
      mentalPenalty { cond0 with startXp := 1000 } ≤
        mentalPenalty { cond0 with startXp := 3000 } ∧
      mentalPenalty { cond0 with concentration := 5 } ≤
        mentalPenalty { cond0 with concentration := 2 } :=
  ⟨claim_C7_mentalPenalty_bounds_monotone.1 cond0,
    claim_C7_mentalPenalty_bounds_monotone.2.1 cond0 1 3 (by norm_num),
    claim_C7_mentalPenalty_bounds_monotone.2.2.1 cond0 1 3 (by norm_num),
    claim_C7_mentalPenalty_bounds_monotone.2.2.2.1 cond0 1000 3000 (by norm_num),
    claim_C7_mentalPenalty_bounds_monotone.2.2.2.2 cond0 2 5 (by norm_num)⟩

/-- The accumulation loop of `weightedWinLoss`, with a general starting
accumulator, equals the starting accumulator plus the two weighted sums. -/
theorem weightedWinLoss_foldl (items : List WeightedSession) :
    ∀ a b : ℚ,
      items.foldl
          (fun acc item =>
            (acc.1 + item.session.wins * item.weight, acc.2 + item.session.losses * item.weight))
          (a, b) =
        (a + (items.map fun it => it.session.wins * it.weight).sum,
          b + (items.map fun it => it.session.losses * it.weight).sum) := by
  induction items with
  | nil => intro a b; simp
  | cons x xs ih =>
    intro a b
    simp only [List.foldl_cons, List.map_cons, List.sum_cons, ih, Prod.mk.injEq]
    constructor <;> ring

/-- `weightedWinLoss` is the pair of weighted win and loss sums. -/
theorem weightedWinLoss_eq_sums (items : List WeightedSession) :
    weightedWinLoss items =
      ((items.map fun it => it.session.wins * it.weight).sum,
        (items.map fun it => it.session.losses * it.weight).sum) := by
  unfold weightedWinLoss
  simpa using weightedWinLoss_foldl items 0 0

/-- Splitting a weighted total into its win and loss parts. -/
theorem sum_weighted_total (items : List WeightedSession) :
    (items.map fun it => it.session.wins * it.weight).sum +
        (items.map fun it => it.session.losses * it.weight).sum =
      (items.map fun it => it.weight * (it.session.wins + it.session.losses)).sum := by
  induction items with
  | nil => simp
  | cons x xs ih =>
    simp only [List.map_cons, List.sum_cons]
    linarith [ih]

/-- C8: The wins and losses returned by `weightedWinLoss` sum to the weighted
sum of each record's `wins + losses`, and the result is invariant under any
permutation of the input list. -/
theorem claim_C8_weightedWinLoss_total_perm :
    (∀ items : List WeightedSession,
      (weightedWinLoss items).1 + (weightedWinLoss items).2 =
        (items.map fun it => it.weight * (it.session.wins + it.session.losses)).sum) ∧
    (∀ items items' : List WeightedSession, items.Perm items' →
      weightedWinLoss items = weightedWinLoss items') := by
  constructor
  · intro items
    rw [weightedWinLoss_eq_sums]
    exact sum_weighted_total items
  · intro items items' hperm
    rw [weightedWinLoss_eq_sums, weightedWinLoss_eq_sums]
    exact Prod.ext ((hperm.map _).sum_eq) ((hperm.map _).sum_eq)

/-- Closed witness for C8: the weighted total and a concrete reordering. -/
theorem claim_C8_weightedWinLoss_total_perm_witness :
    ((weightedWinLoss [⟨recOwn, 0.6⟩, ⟨recOther, 0.4⟩]).1 +
        (weightedWinLoss [⟨recOwn, 0.6⟩, ⟨recOther, 0.4⟩]).2 =
      ([⟨recOwn, 0.6⟩, ⟨recOther, 0.4⟩].map
          (fun it : WeightedSession => it.weight * (it.session.wins + it.session.losses))).sum) ∧
      weightedWinLoss [⟨recOwn, 0.6⟩, ⟨recOther, 0.4⟩] =
        weightedWinLoss [⟨recOther, 0.4⟩, ⟨recOwn, 0.6⟩] :=
  ⟨claim_C8_weightedWinLoss_total_perm.1 [⟨recOwn, 0.6⟩, ⟨recOther, 0.4⟩],
    claim_C8_weightedWinLoss_total_perm.2 [⟨recOwn, 0.6⟩, ⟨recOther, 0.4⟩]
      [⟨recOther, 0.4⟩, ⟨recOwn, 0.6⟩] (List.Perm.swap _ _ _)⟩

/-- `predictedWinRate` is a clamped value, hence lies in [0, 1]. -/
theorem predictedWinRate_mem_unit (ts : List SessionRecord) (c : PredictionCondition)
    (u : Option Int) : 0 ≤ predictedWinRate ts c u ∧ predictedWinRate ts c u ≤ 1 := by
  have hrfl :
      predictedWinRate ts c u =
        clamp01
          (baseRate ts c u + 0.5 * (weaponRate ts c u - baseRate ts c u) +
            0.3 * (stageRate ts c u - baseRate ts c u) - mentalPenalty c) := rfl
  rw [hrfl]
  exact ⟨clamp01_nonneg _, clamp01_le_one _⟩

/-- C3: For every training list (empty included), condition and target user
id, the predicted win rate lies in [0, 1], the win-rate interval brackets the
predicted win rate, and the XP-delta interval brackets the predicted XP
delta. -/
theorem claim_C3_prediction_in_range_brackets (ts : List SessionRecord)
    (c : PredictionCondition) (u : Option Int) :
    (0 ≤ (predictPersonalizedByCondition ts c u).predictedWinRate ∧
      (predictPersonalizedByCondition ts c u).predictedWinRate ≤ 1) ∧
    ((predictPersonalizedByCondition ts c u).winRateIntervalLow ≤
        ((predictPersonalizedByCondition ts c u).predictedWinRate : ℝ) ∧
      ((predictPersonalizedByCondition ts c u).predictedWinRate : ℝ) ≤
        (predictPersonalizedByCondition ts c u).winRateIntervalHigh) ∧
    ((predictPersonalizedByCondition ts c u).xpDeltaIntervalLow ≤
        ((predictPersonalizedByCondition ts c u).predictedXpDelta : ℝ) ∧
      ((predictPersonalizedByCondition ts c u).predictedXpDelta : ℝ) ≤
        (predictPersonalizedByCondition ts c u).xpDeltaIntervalHigh) := by
  by_cases h : ts.length = 0
  · simp only [predictPersonalizedByCondition, if_pos h]
    norm_num
  · simp only [predictPersonalizedByCondition, if_neg h]
    obtain ⟨hp0, hp1⟩ := predictedWinRate_mem_unit ts c u
    have hp0R : (0 : ℝ) ≤ (predictedWinRate ts c u : ℚ) := by exact_mod_cast hp0
    have hp1R : ((predictedWinRate ts c u : ℚ) : ℝ) ≤ 1 := by exact_mod_cast hp1
    have hs0 : 0 ≤ winStd ts c u := Real.sqrt_nonneg _
    have hx20 : (20 : ℝ) ≤ xpStdR ts c u := le_max_left _ _
    refine ⟨⟨hp0, hp1⟩, ⟨?_, ?_⟩, ?_, ?_⟩
    · exact max_le hp0R (le_trans (min_le_right 1 _) (by linarith))
    · exact le_trans (le_min hp1R (by linarith)) (le_max_right 0 _)
    · linarith
    · linarith

/-- C9: Both endpoints of the win-rate interval lie in [0, 1] for every
input — the normal-approximation endpoints are clamped, and the empty-input
fallback interval [0.35, 0.65] is inside [0, 1] as well. -/
theorem claim_C9_winRateInterval_clamped (ts : List SessionRecord) (c : PredictionCondition)
    (u : Option Int) :
    (0 ≤ (predictPersonalizedByCondition ts c u).winRateIntervalLow ∧
      (predictPersonalizedByCondition ts c u).winRateIntervalLow ≤ 1) ∧
    (0 ≤ (predictPersonalizedByCondition ts c u).winRateIntervalHigh ∧
      (predictPersonalizedByCondition ts c u).winRateIntervalHigh ≤ 1) := by
  by_cases h : ts.length = 0
  · simp only [predictPersonalizedByCondition, if_pos h]
    norm_num
  · simp only [predictPersonalizedByCondition, if_neg h]
    exact ⟨⟨clampR_nonneg _, clampR_le_one _⟩, clampR_nonneg _, clampR_le_one _⟩

/-- The training record used by the C2 counterexample: its weapon and stages
do not match the queried condition and it has no wins, which drives the
predicted win rate to 0. -/
def recCx : SessionRecord :=
  { id := 1, userId := none, playedAt := 0, rule := "area", stage1 := "s1", stage2 := "s2",
    weapon := "w1", wins := 0, losses := 1, fatigue := 1, irritability := 1, concentration := 5,
    startXp := 0, endXp := 0 }

/-- The queried condition used by the C2 counterexample. -/
def condCx : PredictionCondition :=
  { rule := "area", stage1 := "t1", stage2 := "t2", weapon := "v", fatigue := 1,
    irritability := 1, concentration := 5, startXp := 0 }

/-- On the counterexample input the predicted win rate is exactly 0. -/
theorem predictedWinRate_recCx : predictedWinRate [recCx] condCx none = 0 := by
  norm_num [predictedWinRate, baseRate, weaponRate, stageRate, mentalPenalty, smoothedRate,
    weightedWinLoss, weaponPool, stagePool, basePool, globalByRule, weightedAll,
    buildWeightedSessions, stageMatches, clamp01, recCx, condCx, beq_iff_eq,
    List.filter_cons, List.filter_nil,
    show ("w1" : String) ≠ "v" from by decide,
    show ("s1" : String) ≠ "t1" from by decide,
    show ("s1" : String) ≠ "t2" from by decide,
    show ("s2" : String) ≠ "t1" from by decide,
    show ("s2" : String) ≠ "t2" from by decide,
    show ("area" : String) = "area" from rfl]

/-- On the counterexample input the interval's effective sample size is the
floor value 6. -/
theorem winNEff_recCx : winNEff [recCx] condCx none = 6 := by
  norm_num [winNEff, xpRule, xpWeapon, xpStage, weightedMeanStd, xpRows, weaponPool, stagePool,
    basePool, globalByRule, weightedAll, buildWeightedSessions, stageMatches, recCx, condCx,
    beq_iff_eq, List.filter_cons, List.filter_nil,
    show ("w1" : String) ≠ "v" from by decide,
    show ("s1" : String) ≠ "t1" from by decide,
    show ("s1" : String) ≠ "t2" from by decide,
    show ("s2" : String) ≠ "t1" from by decide,
    show ("s2" : String) ≠ "t2" from by decide]

/-- C2 counterexample: on a concrete non-empty training list the returned
win-rate interval's upper endpoint differs from the claim's formula
`p + 1.96·sqrt(p·(1−p)/nEff)` — the code floors the variance at 0.0001
before dividing, so with `p = 0` the claimed endpoint is 0 while the code
returns a positive value. -/
theorem claim_C2_counterexample :
    (predictPersonalizedByCondition [recCx] condCx none).winRateIntervalHigh ≠
      (predictedWinRate [recCx] condCx none : ℝ) +
        1.96 * Real.sqrt
          ((predictedWinRate [recCx] condCx none *
              (1 - predictedWinRate [recCx] condCx none) / winNEff [recCx] condCx none : ℚ) : ℝ) := by
  have h0 : ¬([recCx] : List SessionRecord).length = 0 := by simp
  simp only [predictPersonalizedByCondition, if_neg h0, winStd, predictedWinRate_recCx,
    winNEff_recCx]
  have e1 : (max ((0 : ℚ) * (1 - 0)) 0.0001) / 6 = 1 / 60000 := by
    rw [show ((0 : ℚ) * (1 - 0)) = 0 by ring,
      show max (0 : ℚ) 0.0001 = 0.0001 from max_eq_right (by norm_num)]
    norm_num
  have e2 : ((0 : ℚ) * (1 - 0)) / 6 = 0 := by norm_num
  rw [e1, e2]
  have hs : 0 < Real.sqrt (((1 : ℚ) / 60000 : ℚ) : ℝ) := by
    apply Real.sqrt_pos.mpr
    norm_num
  have hlt : Real.sqrt (((1 : ℚ) / 60000 : ℚ) : ℝ) < 1 / 100 := by
    have hcast : (((1 : ℚ) / 60000 : ℚ) : ℝ) = 1 / 60000 := by push_cast; ring
    rw [hcast, show (1 : ℝ) / 100 = Real.sqrt ((1 / 100) ^ 2) from
      (Real.sqrt_sq (by norm_num)).symm]
    exact Real.sqrt_lt_sqrt (by norm_num) (by norm_num)
  have hx0 : 0 < 1.96 * Real.sqrt (((1 : ℚ) / 60000 : ℚ) : ℝ) := by linarith
  have hx1 : 1.96 * Real.sqrt (((1 : ℚ) / 60000 : ℚ) : ℝ) < 1 := by nlinarith
  simp only [Rat.cast_zero, Real.sqrt_zero, mul_zero, add_zero, zero_add]
  unfold clampR
  rw [min_eq_right hx1.le, max_eq_right hx0.le]
  exact ne_of_gt hx0

/-- C2 (amended): For every non-empty training list, the win-rate interval
equals `clamp₀₁(p ± 1.96·sqrt(max(p·(1−p), 0.0001)/nEff))` — the claim's
normal-approximation formula amended by the source's variance floor of
0.0001 and the clamping of both endpoints into [0, 1] — with
`nEff = max(6, modeNEff + 0.5·weaponNEff + 0.5·mapNEff)` taken from the Kish
effective sample sizes of the mode-, weapon- and map-matched XP pools
exactly as the claim states. -/
theorem claim_C2_winRateInterval_formula (ts : List SessionRecord) (c : PredictionCondition)
    (u : Option Int) (h : ts ≠ []) :
    (predictPersonalizedByCondition ts c u).winRateIntervalLow =
      clampR ((predictedWinRate ts c u : ℝ) -
        1.96 * Real.sqrt
          ((max (predictedWinRate ts c u * (1 - predictedWinRate ts c u)) 0.0001 /
            winNEff ts c u : ℚ) : ℝ)) ∧
    (predictPersonalizedByCondition ts c u).winRateIntervalHigh =
      clampR ((predictedWinRate ts c u : ℝ) +
        1.96 * Real.sqrt
          ((max (predictedWinRate ts c u * (1 - predictedWinRate ts c u)) 0.0001 /
            winNEff ts c u : ℚ) : ℝ)) ∧
    winNEff ts c u =
      max 6 ((xpRule ts c u).nEff + 0.5 * (xpWeapon ts c u).nEff + 0.5 * (xpStage ts c u).nEff) := by
  have h0 : ¬ts.length = 0 := by simpa using h
  refine ⟨?_, ?_, rfl⟩ <;> simp only [predictPersonalizedByCondition, if_neg h0] <;> rfl

/-- Closed witness for the amended C2 at the concrete counterexample
input. -/
theorem claim_C2_winRateInterval_formula_witness :
    (predictPersonalizedByCondition [recCx] condCx none).winRateIntervalLow =
      clampR ((predictedWinRate [recCx] condCx none : ℝ) -
        1.96 * Real.sqrt
          ((max (predictedWinRate [recCx] condCx none *
              (1 - predictedWinRate [recCx] condCx none)) 0.0001 /
            winNEff [recCx] condCx none : ℚ) : ℝ)) ∧
    (predictPersonalizedByCondition [recCx] condCx none).winRateIntervalHigh =
      clampR ((predictedWinRate [recCx] condCx none : ℝ) +
        1.96 * Real.sqrt
          ((max (predictedWinRate [recCx] condCx none *
              (1 - predictedWinRate [recCx] condCx none)) 0.0001 /
            winNEff [recCx] condCx none : ℚ) : ℝ)) ∧
    winNEff [recCx] condCx none =
      max 6 ((xpRule [recCx] condCx none).nEff + 0.5 * (xpWeapon [recCx] condCx none).nEff +
        0.5 * (xpStage [recCx] condCx none).nEff) :=
  claim_C2_winRateInterval_formula [recCx] condCx none (by simp)

/-! Sorting facts used for the backtest claims: `fetchAllSessions` returns
records sorted by `(playedAt, id)` lexicographically with distinct ids, and
a stable sort by `playedAt` leaves such a list unchanged. -/

theorem lexLt_le_playedAt {a b : SessionRecord} (h : lexLt a b) :
    a.playedAt ≤ b.playedAt := by
  rcases h with h | ⟨h, _⟩
  · exact le_of_lt h
  · exact le_of_eq h

theorem playedBefore_of_lexLt {a b : SessionRecord} (h : lexLt a b) :
    playedBefore a b = true := by
  unfold playedBefore
  rcases h with h | ⟨h1, h2⟩
  · simp [h]
  · simp [h1, h2]

theorem insertByTime_append (x : SessionRecord) (acc : List SessionRecord)
    (h : ∀ y ∈ acc, y.playedAt ≤ x.playedAt) : insertByTime x acc = acc ++ [x] := by
  induction acc with
  | nil => rfl
  | cons y ys ih =>
    simp only [insertByTime]
    rw [if_pos (h y (by simp))]
    rw [ih (fun z hz => h z (by simp [hz]))]
    simp

theorem foldl_insertByTime_sorted (l : List SessionRecord) :
    ∀ acc : List SessionRecord,
      (acc ++ l).Pairwise (fun a b => a.playedAt ≤ b.playedAt) →
      l.foldl (fun acc x => insertByTime x acc) acc = acc ++ l := by
  induction l with
  | nil => intro acc _; simp
  | cons x xs ih =>
    intro acc h
    simp only [List.foldl_cons]
    have hx : ∀ y ∈ acc, y.playedAt ≤ x.playedAt := by
      intro y hy
      exact (List.pairwise_append.mp h).2.2 y hy x (by simp)
    rw [insertByTime_append x acc hx]
    have h' : ((acc ++ [x]) ++ xs).Pairwise (fun a b => a.playedAt ≤ b.playedAt) := by
      simpa [List.append_assoc] using h
    rw [ih (acc ++ [x]) h']
    simp

/-- A list already sorted by `playedAt` is left unchanged by the harness's
stable sort. -/
theorem sortByPlayedAt_eq_self (l : List SessionRecord)
    (h : l.Pairwise (fun a b => a.playedAt ≤ b.playedAt)) : sortByPlayedAt l = l := by
  unfold sortByPlayedAt
  simpa using foldl_insertByTime_sorted l [] (by simpa using h)

/-- On a lexicographically sorted record list the target user's history needs
no reordering. -/
theorem targetSessionsOf_eq_filter (all : List SessionRecord) (uid : Int)
    (hsort : all.Pairwise lexLt) :
    targetSessionsOf all uid = all.filter (fun s => s.userId == some uid) := by
  unfold targetSessionsOf
  exact sortByPlayedAt_eq_self _ ((hsort.filter _).imp lexLt_le_playedAt)

/-- C4: On a lexicographically sorted record table (as `fetchAllSessions`
delivers), a target user owning exactly the clamped warmup number of records
makes the backtest fail with the insufficient-history error, while a target
user owning exactly warmup + 1 records makes it succeed with exactly one
evaluated row (for every limit parameter — the clamped limit is always
≥ 20 ≥ 1). -/
theorem claim_C4_backtest_warmup_boundary :
    (∀ (all : List SessionRecord) (uid wraw lraw : Int),
      all.Pairwise lexLt →
      (all.filter (fun s => s.userId == some uid)).length = (clampWarmup wraw).toNat →
      runBacktest all uid wraw lraw =
        .error (.insufficientHistory (clampWarmup wraw)
          (all.filter (fun s => s.userId == some uid)).length)) ∧
    (∀ (all : List SessionRecord) (uid wraw lraw : Int),
      all.Pairwise lexLt →
      (all.filter (fun s => s.userId == some uid)).length = (clampWarmup wraw).toNat + 1 →
      ∃ rep, runBacktest all uid wraw lraw = .ok rep ∧
        rep.rows.length = 1 ∧ rep.evaluatedCount = 1) := by
  constructor
  · intro all uid wraw lraw hsort hlen
    have hw3 : (3 : ℤ) ≤ clampWarmup wraw := le_max_left _ _
    have hts := targetSessionsOf_eq_filter all uid hsort
    have hcond : (((all.filter (fun s => s.userId == some uid)).length : ℕ) : ℤ) ≤
        clampWarmup wraw := by
      rw [hlen]; omega
    simp only [runBacktest]
    rw [hts, if_pos hcond]
  · intro all uid wraw lraw hsort hlen
    have hw3 : (3 : ℤ) ≤ clampWarmup wraw := le_max_left _ _
    have hts := targetSessionsOf_eq_filter all uid hsort
    have hdroplen :
        (((all.filter (fun s => s.userId == some uid)).drop ((clampWarmup wraw).toNat)).length)
          = 1 := by
      rw [List.length_drop, hlen]; omega
    obtain ⟨a, ha⟩ := List.length_eq_one.mp hdroplen
    have hpw_ts : ((all.filter (fun s => s.userId == some uid))).Pairwise lexLt :=
      hsort.filter _
    have hpw_split :
        (((all.filter (fun s => s.userId == some uid)).take ((clampWarmup wraw).toNat)) ++
          ((all.filter (fun s => s.userId == some uid)).drop ((clampWarmup wraw).toNat))).Pairwise
            lexLt := by
      rw [List.take_append_drop]; exact hpw_ts
    have hrel :
        ∀ x ∈ (all.filter (fun s => s.userId == some uid)).take ((clampWarmup wraw).toNat),
          lexLt x a := by
      intro x hx
      exact (List.pairwise_append.mp hpw_split).2.2 x hx a (by rw [ha]; simp)
    have htake_len :
        (((all.filter (fun s => s.userId == some uid)).take ((clampWarmup wraw).toNat)).length)
          = (clampWarmup wraw).toNat := by
      rw [List.length_take, hlen]; omega
    have htake_sub :
        List.Sublist
          ((all.filter (fun s => s.userId == some uid)).take ((clampWarmup wraw).toNat)) all :=
      (List.take_sublist _ _).trans (List.filter_sublist all)
    have hfil_eq :
        ((all.filter (fun s => s.userId == some uid)).take
            ((clampWarmup wraw).toNat)).filter (fun s => playedBefore s a) =
          (all.filter (fun s => s.userId == some uid)).take ((clampWarmup wraw).toNat) :=
      List.filter_eq_self.mpr (fun x hx => playedBefore_of_lexLt (hrel x hx))
    have htrain_ge :
        (clampWarmup wraw).toNat ≤ (all.filter (fun s => playedBefore s a)).length := by
      have hsub2 :
          List.Sublist
            (((all.filter (fun s => s.userId == some uid)).take
              ((clampWarmup wraw).toNat)).filter (fun s => playedBefore s a))
            (all.filter (fun s => playedBefore s a)) := htake_sub.filter _
      rw [hfil_eq] at hsub2
      calc (clampWarmup wraw).toNat
          = ((all.filter (fun s => s.userId == some uid)).take
              ((clampWarmup wraw).toNat)).length := htake_len.symm
        _ ≤ _ := hsub2.length_le
    have hstep :
        backtestStep all ((clampWarmup wraw).toNat) uid a =
          some (evalRow (all.filter (fun s => playedBefore s a)) a uid) := by
      simp only [backtestStep]
      rw [if_neg (by omega :
        ¬(all.filter (fun s => playedBefore s a)).length < (clampWarmup wraw).toNat)]
    have hrows :
        backtestRows all uid ((clampWarmup wraw).toNat) =
          [evalRow (all.filter (fun s => playedBefore s a)) a uid] := by
      unfold backtestRows
      rw [hts, ha]
      simp only [List.filterMap_cons, hstep, List.filterMap_nil]
    have hcond2 :
        ¬((((all.filter (fun s => s.userId == some uid)).length : ℕ) : ℤ) ≤
          clampWarmup wraw) := by
      rw [hlen]; push_cast; omega
    have hlim : (1 : ℕ) - (clampLimit lraw).toNat = 0 := by
      have h20 : (20 : ℤ) ≤ clampLimit lraw := le_max_left _ _
      omega
    simp only [runBacktest]
    rw [hts, if_neg hcond2, hrows]
    simp only [List.length_singleton, hlim, List.drop_zero]
    rw [if_neg (by simp)]
    exact ⟨_, rfl, by simp, by simp⟩

/-- Concrete backtest fixture: first record of user 1. -/
def wrecA : SessionRecord :=
  { id := 1, userId := some 1, playedAt := 0, rule := "area", stage1 := "s1", stage2 := "s2",
    weapon := "w1", wins := 1, losses := 1, fatigue := 1, irritability := 1, concentration := 5,
    startXp := 0, endXp := 10 }

/-- Concrete backtest fixture: second record of user 1. -/
def wrecB : SessionRecord :=
  { id := 2, userId := some 1, playedAt := 1, rule := "area", stage1 := "s1", stage2 := "s2",
    weapon := "w1", wins := 2, losses := 1, fatigue := 1, irritability := 1, concentration := 5,
    startXp := 10, endXp := 30 }

/-- Concrete backtest fixture: third record of user 1. -/
def wrecC : SessionRecord :=
  { id := 3, userId := some 1, playedAt := 2, rule := "area", stage1 := "s1", stage2 := "s2",
    weapon := "w1", wins := 1, losses := 2, fatigue := 1, irritability := 1, concentration := 5,
    startXp := 30, endXp := 20 }

/-- Concrete backtest fixture: fourth record of user 1. -/
def wrecD : SessionRecord :=
  { id := 4, userId := some 1, playedAt := 3, rule := "area", stage1 := "s1", stage2 := "s2",
    weapon := "w1", wins := 2, losses := 2, fatigue := 1, irritability := 1, concentration := 5,
    startXp := 20, endXp := 25 }

/-- Fixture table with exactly 3 = clamped-warmup(3) records of user 1. -/
def allW1 : List SessionRecord := [wrecA, wrecB, wrecC]

/-- Fixture table with exactly 4 = clamped-warmup(3) + 1 records of user 1. -/
def allW2 : List SessionRecord := [wrecA, wrecB, wrecC, wrecD]

/-- Closed witness for C4: with warmup parameter 3 and limit 120, a user with
3 records fails with the insufficient-history error and a user with 4
records gets a report with exactly one evaluated row. -/
theorem claim_C4_backtest_warmup_boundary_witness :
    runBacktest allW1 1 3 120 = .error (.insufficientHistory 3 3) ∧
    (∃ rep, runBacktest allW2 1 3 120 = .ok rep ∧
      rep.rows.length = 1 ∧ rep.evaluatedCount = 1) := by
  constructor
  · have h := claim_C4_backtest_warmup_boundary.1 allW1 1 3 120 (by decide) (by decide)
    rw [h]
    have e1 : clampWarmup 3 = 3 := by decide
    have e2 : (allW1.filter (fun s => s.userId == some 1)).length = 3 := by decide
    rw [e1, e2]
  · exact claim_C4_backtest_warmup_boundary.2 allW2 1 3 120 (by decide) (by decide)

/-- The predicted win rate field of the engine's output is never negative
(0.5 on the empty fallback, a clamped value otherwise). -/
theorem predict_rate_nonneg (ts : List SessionRecord) (c : PredictionCondition)
    (u : Option Int) : 0 ≤ (predictPersonalizedByCondition ts c u).predictedWinRate := by
  by_cases h : ts.length = 0
  · norm_num [predictPersonalizedByCondition, h]
  · simp only [predictPersonalizedByCondition, if_neg h]
    exact (predictedWinRate_mem_unit ts c u).1

/-- C10: A record under evaluation with `wins = 0` and `losses = 0` is not
skipped by the backtest loop: whenever the training set is large enough its
row is emitted into the evaluated rows (over which all report metrics are
computed), its actual win rate is scored as exactly 0, and its absolute
win-rate error equals the full predicted win rate. -/
theorem claim_C10_zero_game_record_scored (all : List SessionRecord) (uid : Int) (wN : Nat)
    (current : SessionRecord)
    (hmem : current ∈ (targetSessionsOf all uid).drop wN)
    (htrain : wN ≤ (all.filter (fun s => playedBefore s current)).length)
    (hw : current.wins = 0) (hl : current.losses = 0) :
    ∃ row, backtestStep all wN uid current = some row ∧
      row ∈ backtestRows all uid wN ∧
      row.actualWinRate = 0 ∧
      row.winRateAbsError = row.predictedWinRate := by
  have hstep : backtestStep all wN uid current =
      some (evalRow (all.filter (fun s => playedBefore s current)) current uid) := by
    simp only [backtestStep]
    rw [if_neg (by omega)]
  refine ⟨_, hstep, ?_, ?_, ?_⟩
  · unfold backtestRows
    exact List.mem_filterMap.mpr ⟨current, hmem, hstep⟩
  · simp only [evalRow, hw, hl]
    norm_num
  · simp only [evalRow, hw, hl]
    norm_num
    exact predict_rate_nonneg _ _ _

/-- Fixture for the C10 witness: a zero-game record of user 1. -/
def recZero : SessionRecord :=
  { id := 1, userId := some 1, playedAt := 0, rule := "area", stage1 := "s1", stage2 := "s2",
    weapon := "w1", wins := 0, losses := 0, fatigue := 1, irritability := 1, concentration := 5,
    startXp := 0, endXp := 0 }

/-- Closed witness for C10 at a concrete zero-game record. -/
theorem claim_C10_zero_game_record_scored_witness :
    ∃ row, backtestStep [recZero] 0 1 recZero = some row ∧
      row ∈ backtestRows [recZero] 1 0 ∧
      row.actualWinRate = 0 ∧
      row.winRateAbsError = row.predictedWinRate :=
  claim_C10_zero_game_record_scored [recZero] 1 0 recZero (by decide) (Nat.zero_le _)
    rfl rfl

end XPPredictor
